import Mathlib

/-!
Shallow embedding of the evil-santa-backend Turn Engine (src/db.rs,
src/db/games.rs), its SSE stream adapter (src/api/games.rs, src/api.rs,
src/main.rs) and the Postgres-notification listener loop, together with
theorems settling the specification claims about them.

Conventions of the embedding:
* Postgres tables become lists of row structures inside a `DB` value;
  `NOW()` is the `now` field, `bigserial` event ids come from `nextEventId`.
* `Uuid` keys become `Nat`, `i64` keys become `Int`, timestamps become `Nat`.
* `sqlx` `fetch_one` returns the first matching row or `RowNotFound`;
  `execute` on an UPDATE touches every matching row and never fails on a
  zero-row match; SQL `col = NULL` matches no row.
* Each Rust function that opens a transaction is a `runTx` of a body that
  threads one working `DB`; a body error yields the original `DB`
  (rollback), a body success yields the worked `DB` (commit).
* The `fault` flag injects a storage failure at the PlayEvent append
  statement (for `reset`: the PlayEvent delete) to model a failing event
  insert inside the transaction; `false` is normal operation.
-/

namespace EvilSanta

/-- Errors of the sqlx layer that the code distinguishes: `RowNotFound`
(from `fetch_one` on zero rows) versus any other database error. -/
inductive SqlxError
  | RowNotFound
  | Other
deriving DecidableEq, Repr

/-- The db::Error enum from src/db.rs. Note it has no Conflict variant. -/
inductive Error
  | NotFound
  | Empty
  | InvalidOrder
  | Unknown
  | Sqlx (e : SqlxError)
deriving DecidableEq, Repr

/-- The handle_pg_error function from src/db.rs: RowNotFound maps to
NotFound, every other sqlx error is wrapped unchanged. -/
def handle_pg_error (err : SqlxError) : Error :=
  match err with
  | SqlxError.RowNotFound => Error.NotFound
  | e => Error.Sqlx e

/-- A row of the games table (struct Game, src/db/games.rs). -/
structure Game where
  id : Nat
  name : String
  users : List (String × Int)
  images : List String
  playerId : Option Int
  presentId : Option Int
  startedAt : Option Nat
  createdAt : Nat
  updatedAt : Option Nat
deriving DecidableEq, Repr

/-- A row of the players table (struct Player, src/db/players.rs). -/
structure Player where
  id : Int
  gameId : Nat
  name : String
  images : List String
deriving DecidableEq, Repr

/-- A row of the presents table (struct Present, src/db/presents.rs);
playerId is the current owner, none when unclaimed. -/
structure Present where
  id : Int
  gameId : Nat
  name : String
  playerId : Option Int
  wrappedImages : List String
  unwrappedImages : List String
  createdAt : Nat
  updatedAt : Option Nat
deriving DecidableEq, Repr

/-- A row of the play_events table. The player_id column is NOT NULL: the
Rust PlayEvent struct decodes it into a plain i64. -/
structure PlayEventRow where
  id : Int
  gameId : Nat
  playerId : Int
  presentId : Option Int
  fromPlayerId : Option Int
  fromPresentId : Option Int
  createdAt : Nat
deriving DecidableEq, Repr

/-- The whole store: the tables the Turn Engine touches plus the clock and
the next event id of the play_events id sequence. -/
structure DB where
  games : List Game
  players : List Player
  presents : List Present
  playEvents : List PlayEventRow
  now : Nat
  nextEventId : Int
deriving DecidableEq, Repr

/-- Decidable equality for Except values, needed to evaluate the
operations on concrete stores. -/
instance {ε α : Type} [DecidableEq ε] [DecidableEq α] : DecidableEq (Except ε α) := by
  intro a b
  cases a <;> cases b
  case error.error x y | ok.ok x y =>
    by_cases h : x = y
    · exact isTrue (by rw [h])
    · exact isFalse (by simp [h])
  all_goals exact isFalse (by simp)

/-- The fetch_one combinator of sqlx: first row matching the predicate, or
a RowNotFound error when no row matches. -/
def fetch_one {α : Type} (p : α → Bool) (rows : List α) : Except SqlxError α :=
  match rows.find? p with
  | some row => Except.ok row
  | none => Except.error SqlxError.RowNotFound

/-- An UPDATE ... WHERE statement: applies f to every row matching p. -/
def updateWhere {α : Type} (p : α → Bool) (f : α → α) (rows : List α) : List α :=
  rows.map (fun row => if p row then f row else row)

/-- The GameStateUpdateResult snapshot returned by the six play actions
(src/db/games.rs); updatedAt is unwrap_or_default of the returned column. -/
structure GameStateUpdateResult where
  playerId : Option Int
  presentId : Option Int
  startedAt : Option Nat
  updatedAt : Nat
deriving DecidableEq, Repr

/-- Transaction runner: the body threads one working DB; on success the
worked DB is committed, on any error the original DB is kept (rollback). -/
def runTx {α : Type} (db : DB) (body : DB → Except Error (DB × α)) :
    DB × Except Error α :=
  match body db with
  | Except.ok (db2, a) => (db2, Except.ok a)
  | Except.error e => (db, Except.error e)

/-- An INSERT INTO play_events statement. The player_id column is NOT NULL,
so inserting a NULL player id fails with a (non-RowNotFound) database
error; the other optional columns accept NULL. -/
def insertPlayEvent (db : DB) (gameId : Nat) (playerId : Option Int)
    (presentId fromPlayerId fromPresentId : Option Int) : Except SqlxError DB :=
  match playerId with
  | none => Except.error SqlxError.Other
  | some pid =>
    Except.ok { db with
      playEvents := db.playEvents ++
        [{ id := db.nextEventId, gameId := gameId, playerId := pid,
           presentId := presentId, fromPlayerId := fromPlayerId,
           fromPresentId := fromPresentId, createdAt := db.now }],
      nextEventId := db.nextEventId + 1 }

/-- The start function (src/db/games.rs): one conditional UPDATE setting
started_at = NOW() guarded by started_at IS NULL, via fetch_one, so a
zero-row match (missing game or already started) surfaces as RowNotFound
mapped by handle_pg_error. No transaction and no PlayEvent append. -/
def start (db : DB) (gameId : Nat) : DB × Except Error GameStateUpdateResult :=
  match fetch_one (fun g => g.id == gameId && g.startedAt == none) db.games with
  | Except.error e => (db, Except.error (handle_pg_error e))
  | Except.ok g =>
    let games2 := updateWhere (fun g2 => g2.id == gameId && g2.startedAt == none)
      (fun g2 => { g2 with startedAt := some db.now }) db.games
    ({ db with games := games2 },
     Except.ok { playerId := none, presentId := none,
                 startedAt := some db.now, updatedAt := g.updatedAt.getD 0 })

/-- Transaction body of reset (src/db/games.rs): clear ownership on the
presents of the game, clear the game row (fetch_one, so a missing game is
NotFound), then delete the play_events of the game. -/
def resetBody (gameId : Nat) (fault : Bool) (db : DB) :
    Except Error (DB × GameStateUpdateResult) :=
  let presents1 := updateWhere (fun pr => pr.gameId == gameId)
    (fun pr => { pr with playerId := none, updatedAt := some db.now }) db.presents
  let db1 := { db with presents := presents1 }
  match fetch_one (fun g => g.id == gameId) db1.games with
  | Except.error e => Except.error (handle_pg_error e)
  | Except.ok _ =>
    let clearGame := fun (g : Game) =>
      { g with startedAt := none, playerId := none, presentId := none, updatedAt := some db.now }
    let games2 := updateWhere (fun g => g.id == gameId) clearGame db1.games
    let db2 := { db1 with games := games2 }
    if fault then Except.error (Error.Sqlx SqlxError.Other)
    else
      Except.ok ({ db2 with playEvents := db2.playEvents.filter (fun ev => ev.gameId != gameId) },
        { playerId := none, presentId := none, startedAt := none, updatedAt := db.now })

/-- The reset function: its body inside one transaction. -/
def reset (db : DB) (gameId : Nat) (fault : Bool) : DB × Except Error GameStateUpdateResult :=
  runTx db (resetBody gameId fault)

/-- Owners subquery of roll: SELECT player_id FROM presents WHERE
game_id = $1 AND player_id IS NOT NULL. -/
def presentOwners (db : DB) (gameId : Nat) : List Int :=
  (db.presents.filter (fun pr => pr.gameId == gameId && pr.playerId.isSome)).filterMap
    (fun pr => pr.playerId)

/-- Eligible-players subquery of roll: players of the game whose id is not
among the owners of the game's presents. -/
def eligiblePlayers (db : DB) (gameId : Nat) : List Int :=
  ((db.players.filter (fun p =>
      !(presentOwners db gameId).contains p.id && p.gameId == gameId)).map
    (fun p => p.id))

/-- Transaction body of roll: the conditional UPDATE (guarded by player_id
IS NULL) assigns a random eligible player; ORDER BY random() LIMIT 1 is
modelled by indexing the eligible list at k mod its length, k being the
randomness. A NULL assignment (no eligible player) yields NotFound before
any commit; otherwise one PlayEvent with only game_id and player_id. -/
def rollBody (gameId : Nat) (k : Nat) (fault : Bool) (db : DB) :
    Except Error (DB × GameStateUpdateResult) :=
  match fetch_one (fun g => g.playerId == none && g.id == gameId) db.games with
  | Except.error e => Except.error (handle_pg_error e)
  | Except.ok g =>
    let elig := eligiblePlayers db gameId
    let chosen := elig[k % elig.length]?
    let games1 := updateWhere (fun g2 => g2.playerId == none && g2.id == gameId)
      (fun g2 => { g2 with playerId := chosen }) db.games
    let db1 := { db with games := games1 }
    match chosen with
    | some pid =>
      if fault then Except.error (Error.Sqlx SqlxError.Other)
      else
        match insertPlayEvent db1 gameId (some pid) none none none with
        | Except.error e => Except.error (handle_pg_error e)
        | Except.ok db2 =>
          Except.ok (db2, { playerId := some pid, presentId := none, startedAt := none,
                            updatedAt := g.updatedAt.getD 0 })
    | none => Except.error Error.NotFound

/-- The roll function: its body inside one transaction. -/
def roll (db : DB) (gameId : Nat) (k : Nat) (fault : Bool) :
    DB × Except Error GameStateUpdateResult :=
  runTx db (rollBody gameId k fault)

/-- Transaction body of pick: conditional UPDATE setting present_id guarded
by present_id IS NULL, capturing the current player_id for the event, then
one PlayEvent with game_id, the captured player_id and the present_id. -/
def pickBody (gameId : Nat) (presentId : Int) (fault : Bool) (db : DB) :
    Except Error (DB × GameStateUpdateResult) :=
  match fetch_one (fun g => g.presentId == none && g.id == gameId) db.games with
  | Except.error e => Except.error (handle_pg_error e)
  | Except.ok g =>
    let games1 := updateWhere (fun g2 => g2.presentId == none && g2.id == gameId)
      (fun g2 => { g2 with presentId := some presentId, updatedAt := some db.now }) db.games
    let db1 := { db with games := games1 }
    if fault then Except.error (Error.Sqlx SqlxError.Other)
    else
      match insertPlayEvent db1 gameId g.playerId (some presentId) none none with
      | Except.error e => Except.error (handle_pg_error e)
      | Except.ok db2 =>
        Except.ok (db2, { playerId := none, presentId := some presentId, startedAt := none,
                          updatedAt := db.now })

/-- The pick function: its body inside one transaction. -/
def pick (db : DB) (gameId : Nat) (presentId : Int) (fault : Bool) :
    DB × Except Error GameStateUpdateResult :=
  runTx db (pickBody gameId presentId fault)

/-- Transaction body of keep: read the game row, set the owner of the
present whose id equals the game's present_id (a NULL present_id matches no
row), clear the game row, then one PlayEvent whose from fields repeat the
to fields. -/
def keepBody (gameId : Nat) (fault : Bool) (db : DB) :
    Except Error (DB × GameStateUpdateResult) :=
  match fetch_one (fun g => g.id == gameId) db.games with
  | Except.error e => Except.error (handle_pg_error e)
  | Except.ok g =>
    let presents1 := updateWhere (fun pr => some pr.id == g.presentId)
      (fun pr => { pr with playerId := g.playerId, updatedAt := some db.now }) db.presents
    let db1 := { db with presents := presents1 }
    match fetch_one (fun g2 => g2.id == gameId) db1.games with
    | Except.error e => Except.error (handle_pg_error e)
    | Except.ok _ =>
      let clearGame := fun (g2 : Game) =>
        { g2 with playerId := none, presentId := none, updatedAt := some db.now }
      let games2 := updateWhere (fun g2 => g2.id == gameId) clearGame db1.games
      let db2 := { db1 with games := games2 }
      if fault then Except.error (Error.Sqlx SqlxError.Other)
      else
        match insertPlayEvent db2 gameId g.playerId g.presentId g.playerId g.presentId with
        | Except.error e => Except.error (handle_pg_error e)
        | Except.ok db3 =>
          Except.ok (db3, { playerId := none, presentId := none, startedAt := none,
                            updatedAt := db.now })

/-- The keep function: its body inside one transaction. -/
def keep (db : DB) (gameId : Nat) (fault : Bool) : DB × Except Error GameStateUpdateResult :=
  runTx db (keepBody gameId fault)

/-- Transaction body of steal: read the game row and the target present
row (fetch_one, so a missing target is NotFound), give the target present
to the game's player, give the present referenced by the game's present_id
to the target's previous owner, clear the game row, then one PlayEvent
whose present_id column receives the game's present_id and whose
from_present_id receives the target present id. -/
def stealBody (gameId : Nat) (presentId : Int) (fault : Bool) (db : DB) :
    Except Error (DB × GameStateUpdateResult) :=
  match fetch_one (fun g => g.id == gameId) db.games with
  | Except.error e => Except.error (handle_pg_error e)
  | Except.ok g =>
    match fetch_one (fun pr => pr.id == presentId) db.presents with
    | Except.error e => Except.error (handle_pg_error e)
    | Except.ok target =>
      let presents1 := updateWhere (fun pr => pr.id == presentId)
        (fun pr => { pr with playerId := g.playerId, updatedAt := some db.now }) db.presents
      let db1 := { db with presents := presents1 }
      let presents2 := updateWhere (fun pr => some pr.id == g.presentId)
        (fun pr => { pr with playerId := target.playerId, updatedAt := some db.now }) db1.presents
      let db2 := { db1 with presents := presents2 }
      match fetch_one (fun g2 => g2.id == gameId) db2.games with
      | Except.error e => Except.error (handle_pg_error e)
      | Except.ok _ =>
        let clearGame := fun (g2 : Game) =>
          { g2 with playerId := none, presentId := none, updatedAt := some db.now }
        let games3 := updateWhere (fun g2 => g2.id == gameId) clearGame db2.games
        let db3 := { db2 with games := games3 }
        if fault then Except.error (Error.Sqlx SqlxError.Other)
        else
          match insertPlayEvent db3 gameId g.playerId g.presentId target.playerId (some presentId) with
          | Except.error e => Except.error (handle_pg_error e)
          | Except.ok db4 =>
            Except.ok (db4, { playerId := none, presentId := none, startedAt := none,
                              updatedAt := db.now })

/-- The steal function: its body inside one transaction. -/
def steal (db : DB) (gameId : Nat) (presentId : Int) (fault : Bool) :
    DB × Except Error GameStateUpdateResult :=
  runTx db (stealBody gameId presentId fault)

/-- The in-process broadcast payload (struct PlayEvent, src/db/games.rs):
note it carries no game id at all. -/
structure PlayEvent where
  id : Int
  playerId : Int
  presentId : Option Int
  fromPlayerId : Option Int
  fromPresentId : Option Int
  createdAt : Nat
deriving DecidableEq, Repr

/-- One outcome of listener.try_recv().await inside the start_listening
loop: a delivered notification whose payload either deserializes to a
PlayEvent or is malformed, an empty poll, or a channel error. -/
inductive Notification
  | msg (parsed : Option PlayEvent)
  | emptyPoll
  | chanError
deriving DecidableEq, Repr

/-- Whether the listener loop is still running after consuming a prefix of
its notification stream, or has terminated by propagating a channel error. -/
inductive ListenerState
  | running
  | terminated
deriving DecidableEq, Repr

/-- The start_listening loop (src/db/games.rs) applied to a finite prefix
of its notification stream: a channel error propagates out of the loop at
once; a malformed payload is logged and skipped; a parsed payload is
forwarded to the broadcast channel and the loop continues. The result is
the forwarded events in order plus whether the loop has exited. -/
def start_listening : List Notification → List PlayEvent × ListenerState
  | [] => ([], ListenerState.running)
  | Notification.chanError :: _ => ([], ListenerState.terminated)
  | Notification.emptyPoll :: rest => start_listening rest
  | Notification.msg none :: rest => start_listening rest
  | Notification.msg (some ev) :: rest =>
    let r := start_listening rest
    (ev :: r.1, r.2)

/-- The application state relevant to the stream endpoint: the single
process-wide broadcast channel (main.rs creates exactly one and hands it to
Server::new), modelled as the sequence of events it broadcasts during a
subscription. -/
structure AppState where
  playStream : List PlayEvent
deriving DecidableEq, Repr

/-- An SSE frame produced by the stream endpoint. -/
inductive Frame
  | data (ev : PlayEvent)
deriving DecidableEq, Repr

/-- The events handler (src/api/games.rs): it extracts only the broadcast
channel from the application state, subscribes, and maps every received
message into a data frame. -/
def events (playStream : List PlayEvent) : List Frame :=
  playStream.map Frame.data

/-- The route GET /games/:game_id/stream (src/api.rs): the path supplies a
game id and the request an optional authenticated user, but the handler
extracts neither, so the route simply runs the events handler on the
process-wide channel. -/
def streamRoute (st : AppState) (gameId : Nat) (user : Option String) : List Frame :=
  events st.playStream

/-! Concrete fixture stores used to evaluate the operations at explicit
inputs. -/

/-- Fixture game row with the descriptive attributes fixed. -/
def mkGame (id : Nat) (playerId presentId : Option Int) (startedAt : Option Nat) : Game :=
  { id := id, name := "game", users := [], images := [], playerId := playerId,
    presentId := presentId, startedAt := startedAt, createdAt := 0, updatedAt := none }

/-- Fixture player row. -/
def mkPlayer (id : Int) (gameId : Nat) : Player :=
  { id := id, gameId := gameId, name := "player", images := [] }

/-- Fixture present row. -/
def mkPresent (id : Int) (gameId : Nat) (owner : Option Int) : Present :=
  { id := id, gameId := gameId, name := "present", playerId := owner,
    wrappedImages := [], unwrappedImages := [], createdAt := 0, updatedAt := none }

/-- Store with one started game mid-turn: player 10 active, present 100
contested and unclaimed, present 200 owned by player 20. -/
def stealDB : DB :=
  { games := [mkGame 1 (some 10) (some 100) (some 5)],
    players := [mkPlayer 10 1, mkPlayer 20 1],
    presents := [mkPresent 100 1 none, mkPresent 200 1 (some 20)],
    playEvents := [], now := 9, nextEventId := 1 }

/-- Store with one never-started, never-rolled game with one player and one
unclaimed present. -/
def freshDB : DB :=
  { games := [mkGame 1 none none none],
    players := [mkPlayer 10 1],
    presents := [mkPresent 100 1 none],
    playEvents := [], now := 9, nextEventId := 1 }

/-- Store with one started game whose player 10 was rolled and no present
is contested yet. -/
def rolledDB : DB :=
  { games := [mkGame 1 (some 10) none (some 5)],
    players := [mkPlayer 10 1],
    presents := [mkPresent 100 1 none],
    playEvents := [], now := 9, nextEventId := 1 }

/-- Store with no rows at all. -/
def emptyDB : DB :=
  { games := [], players := [], presents := [], playEvents := [], now := 9, nextEventId := 1 }

/-- Store with two games: game 1 is mid-turn (player 10 active, present 100
contested), while present 300 belongs to game 2 and is owned by player 30. -/
def crossDB : DB :=
  { games := [mkGame 1 (some 10) (some 100) (some 5), mkGame 2 none none none],
    players := [mkPlayer 10 1, mkPlayer 30 2],
    presents := [mkPresent 100 1 none, mkPresent 300 2 (some 30)],
    playEvents := [], now := 9, nextEventId := 1 }

/-! Helper lemmas shared by the claim theorems. -/

/-- The first match of find? is the unique element satisfying p. -/
theorem find?_eq_of_mem_unique {α : Type} (p : α → Bool) (l : List α) (a : α)
    (ha : a ∈ l) (hpa : p a = true) (huniq : ∀ b ∈ l, p b = true → b = a) :
    l.find? p = some a := by
  induction l with
  | nil => cases ha
  | cons x xs ih =>
    rcases List.mem_cons.mp ha with h | h
    · subst h
      exact List.find?_cons_of_pos _ hpa
    · by_cases hx : p x = true
      · have hxa : x = a := huniq x (List.mem_cons_self x xs) hx
        subst hxa
        exact List.find?_cons_of_pos _ hpa
      · rw [List.find?_cons_of_neg _ (by simpa using hx)]
        exact ih h (fun b hb hpb => huniq b (List.mem_cons_of_mem x hb) hpb)

/-- A find? over rows that all fail the predicate yields none. -/
theorem find?_eq_none_of_all {α : Type} (p : α → Bool) (l : List α)
    (h : ∀ b ∈ l, p b = false) : l.find? p = none := by
  rw [List.find?_eq_none]
  intro x hx
  simp [h x hx]

/-- Every row of an updateWhere result is either the image of a matching
row or an untouched non-matching row. -/
theorem updateWhere_mem_eq {α : Type} (p : α → Bool) (f : α → α) (l : List α) (b : α)
    (hb : b ∈ updateWhere p f l) :
    (∃ a ∈ l, p a = true ∧ b = f a) ∨ (b ∈ l ∧ p b = false) := by
  simp only [updateWhere, List.mem_map] at hb
  obtain ⟨a, ha, haeq⟩ := hb
  by_cases hpa : p a = true
  · exact Or.inl ⟨a, ha, hpa, by rw [← haeq, if_pos hpa]⟩
  · have hba : b = a := by rw [← haeq, if_neg hpa]
    subst hba
    exact Or.inr ⟨ha, by simpa using hpa⟩

/-- Rolling back: a transaction whose result is an error leaves the
visible store untouched. -/
theorem runTx_error_eq {α : Type} (db : DB) (body : DB → Except Error (DB × α)) (e : Error)
    (h : (runTx db body).2 = Except.error e) : (runTx db body).1 = db := by
  unfold runTx at h ⊢
  cases hb : body db with
  | ok p => rw [hb] at h; simp at h
  | error e2 => rfl

/-- C8: in the start_listening loop, a notification whose payload fails to
deserialize is logged and skipped without terminating the loop, a channel
error terminates the listener at once, and the loop exits only via a
channel error: over any finite prefix of the notification stream, the loop
has terminated exactly when the prefix contains a channel error. -/
theorem listener_loop_spec :
    ∀ (rest : List Notification),
      (start_listening (Notification.msg none :: rest) = start_listening rest) ∧
      (start_listening (Notification.chanError :: rest) = ([], ListenerState.terminated)) ∧
      ((start_listening rest).2 = ListenerState.terminated ↔ Notification.chanError ∈ rest) := by
  intro rest
  refine ⟨rfl, rfl, ?_⟩
  induction rest with
  | nil => simp [start_listening]
  | cons x xs ih =>
    cases x with
    | msg parsed => cases parsed <;> simp [start_listening, ih]
    | emptyPoll => simp [start_listening, ih]
    | chanError => simp [start_listening]

/-- C9: the stream endpoint at /games/:game_id/stream performs no
authentication or permission check (it yields the frame stream for every
user, including an unauthenticated one, never a rejection) and ignores the
game id in the path: the delivered stream is identical for all game ids
and users, equals the frames of the whole process-wide broadcast channel,
and contains a frame for every event broadcast on that channel whatever
game produced it. -/
theorem stream_route_ignores_game_and_user :
    ∀ (st : AppState) (gid1 gid2 : Nat) (user1 user2 : Option String),
      streamRoute st gid1 user1 = streamRoute st gid2 user2 ∧
      streamRoute st gid1 user1 = st.playStream.map Frame.data ∧
      ∀ ev ∈ st.playStream, Frame.data ev ∈ streamRoute st gid1 user1 := by
  intro st gid1 gid2 user1 user2
  refine ⟨rfl, rfl, ?_⟩
  intro ev hev
  exact List.mem_map_of_mem Frame.data hev

/-- C10: steal never compares the target present's game to the game being
played, so a target present belonging to a different game is stolen across
the boundary: in crossDB, present 300 belongs to game 2, yet steal on game
1 succeeds, hands present 300 to game 1's active player 10, and hands game
1's contested present 100 to present 300's previous owner 30. -/
theorem steal_cross_game :
    (∃ pr ∈ crossDB.presents, pr.id = 300 ∧ pr.gameId = 2) ∧
    ((steal crossDB 1 300 false).2 = Except.ok
      { playerId := none, presentId := none, startedAt := none, updatedAt := 9 }) ∧
    (∀ pr ∈ (steal crossDB 1 300 false).1.presents, pr.id = 300 →
      pr.gameId = 2 ∧ pr.playerId = some 10) ∧
    (∀ pr ∈ (steal crossDB 1 300 false).1.presents, pr.id = 100 →
      pr.playerId = some 30) := by
  decide

/-- C1 counterexample: in stealDB the contested present is 100 and the
steal targets present 200, but the appended event records present_id 100
(the contested present), not 200 (the target) as the claim states; the
target id only appears in from_present_id. -/
theorem steal_event_presentId_is_contested_not_target :
    ((steal stealDB 1 200 false).1.playEvents.map (fun ev => ev.presentId) = [some 100]) ∧
    ((steal stealDB 1 200 false).1.playEvents.map (fun ev => ev.fromPresentId) = [some 200]) ∧
    (some (100 : Int) ≠ some (200 : Int)) := by
  decide

/-- C2 counterexample: starting the already-started game of stealDB fails
with Error.NotFound itself, not with a Conflict signal distinct from
NotFound, and is therefore indistinguishable from starting a game that
does not exist, which returns the same value. -/
theorem start_already_started_returns_notfound :
    (start stealDB 1 = (stealDB, Except.error Error.NotFound)) ∧
    (start emptyDB 1 = (emptyDB, Except.error Error.NotFound)) := by
  decide

/-- C3 counterexample: start on the fresh game of freshDB commits its state
transition (started_at becomes set) yet appends no PlayEvent at all, so
not every committing operation inserts exactly one PlayEvent row. -/
theorem start_appends_no_play_event :
    ((start freshDB 1).2 = Except.ok
      { playerId := none, presentId := none, startedAt := some 9, updatedAt := 0 }) ∧
    ((start freshDB 1).1.playEvents = []) ∧
    (∀ g ∈ (start freshDB 1).1.games, g.startedAt = some 9) := by
  decide

/-- C2 (amended): a failed guard condition — start on an already-started
game, roll when player_id is already set, pick when present_id is already
set — returns Error.NotFound: the conditional UPDATE matches zero rows,
fetch_one yields RowNotFound, and handle_pg_error folds that into the very
same NotFound value that a missing game produces; the Error enum has no
Conflict variant, so the guard-failure signal is not distinct from
NotFound. -/
theorem guard_failures_map_to_notfound
    (db : DB) (gameId : Nat) (presentId : Int) (k : Nat) (g : Game)
    (hg : g ∈ db.games) (hgid : g.id = gameId)
    (huniq : ∀ b ∈ db.games, b.id = gameId → b = g) :
    (g.startedAt ≠ none → start db gameId = (db, Except.error Error.NotFound)) ∧
    (g.playerId ≠ none → roll db gameId k false = (db, Except.error Error.NotFound)) ∧
    (g.presentId ≠ none → pick db gameId presentId false = (db, Except.error Error.NotFound)) ∧
    (∀ db2 : DB, (∀ b ∈ db2.games, b.id ≠ gameId) →
      start db2 gameId = (db2, Except.error Error.NotFound)) := by
  refine ⟨?_, ?_, ?_, ?_⟩
  · intro hs
    have hnone : List.find? (fun g2 => g2.id == gameId && g2.startedAt == none) db.games = none := by
      apply find?_eq_none_of_all
      intro b hb
      by_cases hid : b.id = gameId
      · have hbg : b = g := huniq b hb hid
        subst hbg
        cases hgs : b.startedAt with
        | none => exact absurd hgs hs
        | some t => simp [hid, hgs]
      · simp [hid]
    simp [start, fetch_one, hnone, handle_pg_error]
  · intro hp
    have hnone : List.find? (fun g2 => g2.playerId == none && g2.id == gameId) db.games = none := by
      apply find?_eq_none_of_all
      intro b hb
      by_cases hid : b.id = gameId
      · have hbg : b = g := huniq b hb hid
        subst hbg
        cases hgp : b.playerId with
        | none => exact absurd hgp hp
        | some t => simp [hid, hgp]
      · simp [hid]
    simp [roll, runTx, rollBody, fetch_one, hnone, handle_pg_error]
  · intro hp
    have hnone : List.find? (fun g2 => g2.presentId == none && g2.id == gameId) db.games = none := by
      apply find?_eq_none_of_all
      intro b hb
      by_cases hid : b.id = gameId
      · have hbg : b = g := huniq b hb hid
        subst hbg
        cases hgp : b.presentId with
        | none => exact absurd hgp hp
        | some t => simp [hid, hgp]
      · simp [hid]
    simp [pick, runTx, pickBody, fetch_one, hnone, handle_pg_error]
  · intro db2 hmiss
    have hnone : List.find? (fun g2 => g2.id == gameId && g2.startedAt == none) db2.games = none := by
      apply find?_eq_none_of_all
      intro b hb
      simp [hmiss b hb]
    simp [start, fetch_one, hnone, handle_pg_error]

/-- C2 witness: stealDB has game 1 started with player_id and present_id
both set, so all three guard failures return NotFound on it. -/
theorem guard_failures_map_to_notfound_witness :
    (start stealDB 1 = (stealDB, Except.error Error.NotFound)) ∧
    (roll stealDB 1 0 false = (stealDB, Except.error Error.NotFound)) ∧
    (pick stealDB 1 100 false = (stealDB, Except.error Error.NotFound)) := by
  have h := guard_failures_map_to_notfound stealDB 1 100 0
    (mkGame 1 (some 10) (some 100) (some 5)) (by decide) (by decide) (by decide)
  exact ⟨h.1 (by decide), h.2.1 (by decide), h.2.2.1 (by decide)⟩

/-- C5: for every existing game, whatever the prior state, reset succeeds
and afterwards every present of the game is unowned, the game row has
empty player_id, present_id and started_at, and no PlayEvent row for the
game remains; all these writes belong to the one committed transaction
that produced the returned store. -/
theorem reset_spec
    (db : DB) (gameId : Nat) (g : Game)
    (hg : g ∈ db.games) (hgid : g.id = gameId) :
    ((reset db gameId false).2 = Except.ok
      { playerId := none, presentId := none, startedAt := none, updatedAt := db.now }) ∧
    (∀ pr ∈ (reset db gameId false).1.presents, pr.gameId = gameId → pr.playerId = none) ∧
    (∀ g2 ∈ (reset db gameId false).1.games, g2.id = gameId →
      g2.playerId = none ∧ g2.presentId = none ∧ g2.startedAt = none) ∧
    (∀ ev ∈ (reset db gameId false).1.playEvents, ev.gameId ≠ gameId) := by
  have hsome : (List.find? (fun g2 => g2.id == gameId) db.games).isSome := by
    rw [List.find?_isSome]
    exact ⟨g, hg, by simp [hgid]⟩
  obtain ⟨b, hb⟩ := Option.isSome_iff_exists.mp hsome
  have hsnap : (reset db gameId false).2 = Except.ok { playerId := none, presentId := none, startedAt := none, updatedAt := db.now } := by
    simp [reset, runTx, resetBody, fetch_one, hb]
  have hpres : (reset db gameId false).1.presents = updateWhere (fun pr => pr.gameId == gameId) (fun pr => { pr with playerId := none, updatedAt := some db.now }) db.presents := by
    simp [reset, runTx, resetBody, fetch_one, hb]
  have hgames : (reset db gameId false).1.games = updateWhere (fun g2 => g2.id == gameId) (fun g2 => { g2 with startedAt := none, playerId := none, presentId := none, updatedAt := some db.now }) db.games := by
    simp [reset, runTx, resetBody, fetch_one, hb]
  have hevs : (reset db gameId false).1.playEvents = db.playEvents.filter (fun ev => ev.gameId != gameId) := by
    simp [reset, runTx, resetBody, fetch_one, hb]
  refine ⟨hsnap, ?_, ?_, ?_⟩
  · intro pr hpr hprg
    rw [hpres] at hpr
    rcases updateWhere_mem_eq _ _ _ _ hpr with ⟨a, _, _, heq⟩ | ⟨_, hpf⟩
    · rw [heq]
    · exact absurd hprg (by simpa using hpf)
  · intro g2 hg2 hid
    rw [hgames] at hg2
    rcases updateWhere_mem_eq _ _ _ _ hg2 with ⟨a, _, _, heq⟩ | ⟨_, hpf⟩
    · rw [heq]
      exact ⟨rfl, rfl, rfl⟩
    · exact absurd hid (by simpa using hpf)
  · intro ev hev
    rw [hevs] at hev
    have := List.mem_filter.mp hev
    simpa using this.2

/-- C6: for every game with player_id and present_id set, keep gives that
present to that player, clears the game's player_id and present_id, and
appends one PlayEvent whose from_player_id equals its player_id and whose
from_present_id equals its present_id. -/
theorem keep_spec
    (db : DB) (gameId : Nat) (cp a : Int) (g : Game)
    (hg : g ∈ db.games) (hgid : g.id = gameId)
    (huniq : ∀ b ∈ db.games, b.id = gameId → b = g)
    (hcp : g.playerId = some cp) (ha : g.presentId = some a) :
    ((keep db gameId false).2 = Except.ok { playerId := none, presentId := none, startedAt := none, updatedAt := db.now }) ∧
    (∀ pr ∈ (keep db gameId false).1.presents, pr.id = a → pr.playerId = some cp) ∧
    (∀ g2 ∈ (keep db gameId false).1.games, g2.id = gameId → g2.playerId = none ∧ g2.presentId = none) ∧
    ((keep db gameId false).1.playEvents = db.playEvents ++ [{ id := db.nextEventId, gameId := gameId, playerId := cp, presentId := some a, fromPlayerId := some cp, fromPresentId := some a, createdAt := db.now }]) := by
  have hfind : List.find? (fun g2 => g2.id == gameId) db.games = some g :=
    find?_eq_of_mem_unique _ _ g hg (by simp [hgid])
      (fun b hb hpb => huniq b hb (by simpa using hpb))
  have hsnap : (keep db gameId false).2 = Except.ok { playerId := none, presentId := none, startedAt := none, updatedAt := db.now } := by
    simp [keep, runTx, keepBody, fetch_one, hfind, insertPlayEvent, hcp, ha]
  have hpres : (keep db gameId false).1.presents = updateWhere (fun pr => some pr.id == some a) (fun pr => { pr with playerId := some cp, updatedAt := some db.now }) db.presents := by
    simp [keep, runTx, keepBody, fetch_one, hfind, insertPlayEvent, hcp, ha]
  have hgames : (keep db gameId false).1.games = updateWhere (fun g2 => g2.id == gameId) (fun g2 => { g2 with playerId := none, presentId := none, updatedAt := some db.now }) db.games := by
    simp [keep, runTx, keepBody, fetch_one, hfind, insertPlayEvent, hcp, ha]
  have hevs : (keep db gameId false).1.playEvents = db.playEvents ++ [{ id := db.nextEventId, gameId := gameId, playerId := cp, presentId := some a, fromPlayerId := some cp, fromPresentId := some a, createdAt := db.now }] := by
    simp [keep, runTx, keepBody, fetch_one, hfind, insertPlayEvent, hcp, ha]
  refine ⟨hsnap, ?_, ?_, hevs⟩
  · intro pr hpr hid
    rw [hpres] at hpr
    rcases updateWhere_mem_eq _ _ _ _ hpr with ⟨a0, _, _, heq⟩ | ⟨_, hpf⟩
    · rw [heq]
    · exact absurd hid (by simpa using hpf)
  · intro g2 hg2 hid
    rw [hgames] at hg2
    rcases updateWhere_mem_eq _ _ _ _ hg2 with ⟨a0, _, _, heq⟩ | ⟨_, hpf⟩
    · rw [heq]
      exact ⟨rfl, rfl⟩
    · exact absurd hid (by simpa using hpf)

/-- C6 witness: keeping on stealDB (player 10 active, present 100
contested) stores the present with player 10 and logs the mirrored
event. -/
theorem keep_spec_witness :
    ((keep stealDB 1 false).2 = Except.ok { playerId := none, presentId := none, startedAt := none, updatedAt := 9 }) ∧
    ((keep stealDB 1 false).1.playEvents = [{ id := 1, gameId := 1, playerId := 10, presentId := some 100, fromPlayerId := some 10, fromPresentId := some 100, createdAt := 9 }]) := by
  have h := keep_spec stealDB 1 10 100 (mkGame 1 (some 10) (some 100) (some 5))
    (by decide) (by decide) (by decide) (by decide) (by decide)
  exact ⟨h.1, by simpa using h.2.2.2⟩

/-- C1 (amended): with active present A contested, active player cp, and
target present B (distinct from A) previously owned by P, a successful
steal leaves P owning A and cp owning B and clears the game's player_id
and present_id, and it appends exactly one PlayEvent with player_id cp,
from_player_id P and from_present_id B — but the event's present_id column
records A, the contested present taken from the game row, not B as the
original claim states. -/
theorem steal_spec
    (db : DB) (gameId : Nat) (targetId : Int) (g : Game) (target : Present) (cp a : Int)
    (hg : g ∈ db.games) (hgid : g.id = gameId)
    (huniq : ∀ b ∈ db.games, b.id = gameId → b = g)
    (hcp : g.playerId = some cp) (ha : g.presentId = some a)
    (htm : target ∈ db.presents) (htid : target.id = targetId)
    (htuniq : ∀ pr ∈ db.presents, pr.id = targetId → pr = target)
    (hne : a ≠ targetId) :
    ((steal db gameId targetId false).2 = Except.ok { playerId := none, presentId := none, startedAt := none, updatedAt := db.now }) ∧
    (∀ pr ∈ (steal db gameId targetId false).1.presents, pr.id = targetId → pr.playerId = some cp) ∧
    (∀ pr ∈ (steal db gameId targetId false).1.presents, pr.id = a → pr.playerId = target.playerId) ∧
    (∀ g2 ∈ (steal db gameId targetId false).1.games, g2.id = gameId → g2.playerId = none ∧ g2.presentId = none) ∧
    ((steal db gameId targetId false).1.playEvents = db.playEvents ++ [{ id := db.nextEventId, gameId := gameId, playerId := cp, presentId := some a, fromPlayerId := target.playerId, fromPresentId := some targetId, createdAt := db.now }]) := by
  have hfind : List.find? (fun g2 => g2.id == gameId) db.games = some g :=
    find?_eq_of_mem_unique _ _ g hg (by simp [hgid])
      (fun b hb hpb => huniq b hb (by simpa using hpb))
  have hfindT : List.find? (fun pr => pr.id == targetId) db.presents = some target :=
    find?_eq_of_mem_unique _ _ target htm (by simp [htid])
      (fun b hb hpb => htuniq b hb (by simpa using hpb))
  have hsnap : (steal db gameId targetId false).2 = Except.ok { playerId := none, presentId := none, startedAt := none, updatedAt := db.now } := by
    simp [steal, runTx, stealBody, fetch_one, hfind, hfindT, insertPlayEvent, hcp, ha]
  have hpres : (steal db gameId targetId false).1.presents = updateWhere (fun pr => some pr.id == some a) (fun pr => { pr with playerId := target.playerId, updatedAt := some db.now }) (updateWhere (fun pr => pr.id == targetId) (fun pr => { pr with playerId := some cp, updatedAt := some db.now }) db.presents) := by
    simp [steal, runTx, stealBody, fetch_one, hfind, hfindT, insertPlayEvent, hcp, ha]
  have hgames : (steal db gameId targetId false).1.games = updateWhere (fun g2 => g2.id == gameId) (fun g2 => { g2 with playerId := none, presentId := none, updatedAt := some db.now }) db.games := by
    simp [steal, runTx, stealBody, fetch_one, hfind, hfindT, insertPlayEvent, hcp, ha]
  have hevs : (steal db gameId targetId false).1.playEvents = db.playEvents ++ [{ id := db.nextEventId, gameId := gameId, playerId := cp, presentId := some a, fromPlayerId := target.playerId, fromPresentId := some targetId, createdAt := db.now }] := by
    simp [steal, runTx, stealBody, fetch_one, hfind, hfindT, insertPlayEvent, hcp, ha]
  refine ⟨hsnap, ?_, ?_, ?_, hevs⟩
  · intro pr hpr hid
    rw [hpres] at hpr
    rcases updateWhere_mem_eq _ _ _ _ hpr with ⟨a0, _, hpa, heq⟩ | ⟨hmem, _⟩
    · have hida : a0.id = a := by simpa using hpa
      rw [heq] at hid
      exact absurd (hida ▸ hid) hne
    · rcases updateWhere_mem_eq _ _ _ _ hmem with ⟨a1, _, _, heq1⟩ | ⟨_, hpf1⟩
      · rw [heq1]
      · exact absurd hid (by simpa using hpf1)
  · intro pr hpr hid
    rw [hpres] at hpr
    rcases updateWhere_mem_eq _ _ _ _ hpr with ⟨a0, _, _, heq⟩ | ⟨_, hpf⟩
    · rw [heq]
    · exact absurd hid (by simpa using hpf)
  · intro g2 hg2 hid
    rw [hgames] at hg2
    rcases updateWhere_mem_eq _ _ _ _ hg2 with ⟨a0, _, _, heq⟩ | ⟨_, hpf⟩
    · rw [heq]
      exact ⟨rfl, rfl⟩
    · exact absurd hid (by simpa using hpf)

/-- C1 witness: stealing present 200 (owned by 20) in stealDB while
present 100 is contested by player 10 swaps the owners and logs the
amended event shape. -/
theorem steal_spec_witness :
    ((steal stealDB 1 200 false).2 = Except.ok { playerId := none, presentId := none, startedAt := none, updatedAt := 9 }) ∧
    ((steal stealDB 1 200 false).1.playEvents = [{ id := 1, gameId := 1, playerId := 10, presentId := some 100, fromPlayerId := some 20, fromPresentId := some 200, createdAt := 9 }]) := by
  have h := steal_spec stealDB 1 200 (mkGame 1 (some 10) (some 100) (some 5))
    (mkPresent 200 1 (some 20)) 10 100 (by decide) (by decide) (by decide) (by decide)
    (by decide) (by decide) (by decide) (by decide) (by decide)
  exact ⟨h.1, by simpa using h.2.2.2.2⟩

/-- Membership in the owners subquery of roll is ownership of some present
of the game. -/
theorem mem_presentOwners_iff (db : DB) (gameId : Nat) (pid : Int) :
    pid ∈ presentOwners db gameId ↔
      ∃ pr ∈ db.presents, pr.gameId = gameId ∧ pr.playerId = some pid := by
  simp only [presentOwners, List.mem_filterMap, List.mem_filter, Bool.and_eq_true, beq_iff_eq]
  constructor
  · rintro ⟨pr, ⟨hpr, hgid, _⟩, hpid⟩
    exact ⟨pr, hpr, hgid, hpid⟩
  · rintro ⟨pr, hpr, hgid, hpid⟩
    exact ⟨pr, ⟨hpr, hgid, by simp [hpid]⟩, hpid⟩

/-- Membership in the eligible-players subquery of roll characterised: a
player of the game owning no present of the game. -/
theorem mem_eligiblePlayers_iff (db : DB) (gameId : Nat) (pid : Int) :
    pid ∈ eligiblePlayers db gameId ↔
      ∃ p ∈ db.players, p.id = pid ∧ p.gameId = gameId ∧
        ∀ pr ∈ db.presents, pr.gameId = gameId → pr.playerId ≠ some pid := by
  simp only [eligiblePlayers, List.mem_map, List.mem_filter, Bool.and_eq_true, beq_iff_eq,
    Bool.not_eq_true']
  constructor
  · rintro ⟨p, ⟨hp, hcont, hgid⟩, rfl⟩
    refine ⟨p, hp, rfl, hgid, ?_⟩
    intro pr hpr hprg hpro
    have hmem : p.id ∈ presentOwners db gameId :=
      (mem_presentOwners_iff db gameId p.id).mpr ⟨pr, hpr, hprg, hpro⟩
    have : (presentOwners db gameId).contains p.id = true := by
      simpa [List.contains, List.elem_iff] using hmem
    rw [this] at hcont
    cases hcont
  · rintro ⟨p, hp, rfl, hgid, hown⟩
    refine ⟨p, ⟨hp, ?_, hgid⟩, rfl⟩
    by_contra hcont
    have hmem : p.id ∈ presentOwners db gameId := by
      have : (presentOwners db gameId).contains p.id = true := by
        cases hc : (presentOwners db gameId).contains p.id with
        | true => rfl
        | false => exact absurd hc hcont
      simpa [List.contains, List.elem_iff] using this
    rcases (mem_presentOwners_iff db gameId p.id).mp hmem with ⟨pr, hpr, hprg, hpro⟩
    exact hown pr hpr hprg hpro

/-- C4: on a game whose player_id is empty, roll with randomness k picks
the player at index k mod n of the eligible list (players of the game
owning no present of the game; uniform for uniform k, and every eligible
player is reachable by some k), stores it in the game row, and appends one
PlayEvent with that player_id and an empty present_id; when no eligible
player exists it returns NotFound and the store is unchanged. -/
theorem roll_spec
    (db : DB) (gameId : Nat) (k : Nat) (g : Game)
    (hg : g ∈ db.games) (hgid : g.id = gameId)
    (huniq : ∀ b ∈ db.games, b.id = gameId → b = g)
    (hfree : g.playerId = none) :
    (eligiblePlayers db gameId = [] →
      roll db gameId k false = (db, Except.error Error.NotFound)) ∧
    (∀ pid, (eligiblePlayers db gameId)[k % (eligiblePlayers db gameId).length]? = some pid →
      ((roll db gameId k false).2 = Except.ok { playerId := some pid, presentId := none, startedAt := none, updatedAt := g.updatedAt.getD 0 }) ∧
      (∃ p ∈ db.players, p.id = pid ∧ p.gameId = gameId ∧
        ∀ pr ∈ db.presents, pr.gameId = gameId → pr.playerId ≠ some pid) ∧
      (∀ g2 ∈ (roll db gameId k false).1.games, g2.id = gameId → g2.playerId = some pid) ∧
      ((roll db gameId k false).1.playEvents = db.playEvents ++ [{ id := db.nextEventId, gameId := gameId, playerId := pid, presentId := none, fromPlayerId := none, fromPresentId := none, createdAt := db.now }])) ∧
    (∀ pid ∈ eligiblePlayers db gameId, ∃ k2,
      (eligiblePlayers db gameId)[k2 % (eligiblePlayers db gameId).length]? = some pid) := by
  have hfind : List.find? (fun g2 => g2.playerId == none && g2.id == gameId) db.games = some g :=
    find?_eq_of_mem_unique _ _ g hg (by simp [hgid, hfree])
      (fun b hb hpb => huniq b hb (by simp only [Bool.and_eq_true, beq_iff_eq] at hpb; exact hpb.2))
  refine ⟨?_, ?_, ?_⟩
  · intro hnil
    simp [roll, runTx, rollBody, fetch_one, hfind, hnil]
  · intro pid hpid
    have hmemElig : pid ∈ eligiblePlayers db gameId := by
      rcases List.getElem?_eq_some.mp hpid with ⟨hlt, hEq⟩
      exact hEq ▸ List.getElem_mem hlt
    have hsnap : (roll db gameId k false).2 = Except.ok { playerId := some pid, presentId := none, startedAt := none, updatedAt := g.updatedAt.getD 0 } := by
      simp [roll, runTx, rollBody, fetch_one, hfind, hpid, insertPlayEvent]
    have hgames : (roll db gameId k false).1.games = updateWhere (fun g2 => g2.playerId == none && g2.id == gameId) (fun g2 => { g2 with playerId := some pid }) db.games := by
      simp [roll, runTx, rollBody, fetch_one, hfind, hpid, insertPlayEvent]
    have hevs : (roll db gameId k false).1.playEvents = db.playEvents ++ [{ id := db.nextEventId, gameId := gameId, playerId := pid, presentId := none, fromPlayerId := none, fromPresentId := none, createdAt := db.now }] := by
      simp [roll, runTx, rollBody, fetch_one, hfind, hpid, insertPlayEvent]
    refine ⟨hsnap, (mem_eligiblePlayers_iff db gameId pid).mp hmemElig, ?_, hevs⟩
    intro g2 hg2 hid
    rw [hgames] at hg2
    rcases updateWhere_mem_eq _ _ _ _ hg2 with ⟨a0, _, _, heq⟩ | ⟨hmem, hpf⟩
    · rw [heq]
    · have hbg := huniq g2 hmem hid
      rw [hbg, hfree, hgid] at hpf
      simp at hpf
  · intro pid hmem
    rcases List.mem_iff_getElem?.mp hmem with ⟨i, hi⟩
    have hlt : i < (eligiblePlayers db gameId).length := by
      rcases List.getElem?_eq_some.mp hi with ⟨hlt, _⟩
      exact hlt
    exact ⟨i, by rw [Nat.mod_eq_of_lt hlt]; exact hi⟩

/-- C4 witness: rolling on freshDB (one player, none owning anything)
selects player 10 and logs the event with an empty present_id. -/
theorem roll_spec_witness :
    ((roll freshDB 1 0 false).2 = Except.ok { playerId := some 10, presentId := none, startedAt := none, updatedAt := 0 }) ∧
    ((roll freshDB 1 0 false).1.playEvents = [{ id := 1, gameId := 1, playerId := 10, presentId := none, fromPlayerId := none, fromPresentId := none, createdAt := 9 }]) := by
  have h := roll_spec freshDB 1 0 (mkGame 1 none none none)
    (by decide) (by decide) (by decide) (by decide)
  have h2 := h.2.1 10 (by decide)
  exact ⟨h2.1, by simpa using h2.2.2.2⟩

/-- C5 witness: resetting game 1 of stealDB wipes ownership, state and
events. -/
theorem reset_spec_witness :
    ((reset stealDB 1 false).2 = Except.ok
      { playerId := none, presentId := none, startedAt := none, updatedAt := 9 }) ∧
    ((reset stealDB 1 false).1.playEvents = []) := by
  have h := reset_spec stealDB 1 (mkGame 1 (some 10) (some 100) (some 5)) (by decide) (by decide)
  exact ⟨h.1, by decide⟩

theorem rollBody_ok_event (gameId : Nat) (k : Nat) (fault : Bool) (db db2 : DB)
    (r : GameStateUpdateResult) (h : rollBody gameId k fault db = Except.ok (db2, r)) :
    ∃ ev, db2.playEvents = db.playEvents ++ [ev] ∧ ev.gameId = gameId := by
  unfold rollBody at h
  split at h
  · simp at h
  · dsimp only at h
    split at h
    · split at h
      · simp at h
      · simp only [insertPlayEvent, Except.ok.injEq, Prod.mk.injEq] at h
        obtain ⟨hdb, hr⟩ := h
        subst hdb
        exact ⟨_, rfl, rfl⟩
    · simp at h

theorem pickBody_ok_event (gameId : Nat) (presentId : Int) (fault : Bool) (db db2 : DB)
    (r : GameStateUpdateResult) (h : pickBody gameId presentId fault db = Except.ok (db2, r)) :
    ∃ ev, db2.playEvents = db.playEvents ++ [ev] ∧ ev.gameId = gameId := by
  unfold pickBody at h
  split at h
  · simp at h
  · rename_i g hgEq
    dsimp only at h
    split at h
    · simp at h
    · cases hP : g.playerId with
      | none => rw [hP] at h; simp [insertPlayEvent] at h
      | some pid =>
        rw [hP] at h
        simp only [insertPlayEvent, Except.ok.injEq, Prod.mk.injEq] at h
        obtain ⟨hdb, hr⟩ := h
        subst hdb
        exact ⟨_, rfl, rfl⟩

theorem keepBody_ok_event (gameId : Nat) (fault : Bool) (db db2 : DB)
    (r : GameStateUpdateResult) (h : keepBody gameId fault db = Except.ok (db2, r)) :
    ∃ ev, db2.playEvents = db.playEvents ++ [ev] ∧ ev.gameId = gameId := by
  unfold keepBody at h
  split at h
  · simp at h
  · rename_i g hgEq
    dsimp only at h
    split at h
    · simp at h
    · split at h
      · simp at h
      · cases hP : g.playerId with
        | none => rw [hP] at h; simp [insertPlayEvent] at h
        | some pid =>
          rw [hP] at h
          simp only [insertPlayEvent, Except.ok.injEq, Prod.mk.injEq] at h
          obtain ⟨hdb, hr⟩ := h
          subst hdb
          exact ⟨_, rfl, rfl⟩

theorem stealBody_ok_event (gameId : Nat) (presentId : Int) (fault : Bool) (db db2 : DB)
    (r : GameStateUpdateResult) (h : stealBody gameId presentId fault db = Except.ok (db2, r)) :
    ∃ ev, db2.playEvents = db.playEvents ++ [ev] ∧ ev.gameId = gameId := by
  unfold stealBody at h
  split at h
  · simp at h
  · rename_i g hgEq
    dsimp only at h
    split at h
    · simp at h
    · split at h
      · simp at h
      · split at h
        · simp at h
        · cases hP : g.playerId with
          | none => rw [hP] at h; simp [insertPlayEvent] at h
          | some pid =>
            rw [hP] at h
            simp only [insertPlayEvent, Except.ok.injEq, Prod.mk.injEq] at h
            obtain ⟨hdb, hr⟩ := h
            subst hdb
            exact ⟨_, rfl, rfl⟩

theorem resetBody_ok_events (gameId : Nat) (fault : Bool) (db db2 : DB)
    (r : GameStateUpdateResult) (h : resetBody gameId fault db = Except.ok (db2, r)) :
    ∀ ev ∈ db2.playEvents, ev.gameId ≠ gameId := by
  unfold resetBody at h
  dsimp only at h
  split at h
  · simp at h
  · split at h
    · simp at h
    · simp only [Except.ok.injEq, Prod.mk.injEq] at h
      obtain ⟨hdb, hr⟩ := h
      subst hdb
      intro ev hev
      have := List.mem_filter.mp hev
      simpa using this.2

theorem start_playEvents_eq (db : DB) (gameId : Nat) :
    (start db gameId).1.playEvents = db.playEvents := by
  unfold start
  cases hf : fetch_one (fun g => g.id == gameId && g.startedAt == none) db.games <;> rfl

theorem start_error_eq (db : DB) (gameId : Nat) (e : Error)
    (h : (start db gameId).2 = Except.error e) : (start db gameId).1 = db := by
  unfold start at h ⊢
  cases hf : fetch_one (fun g => g.id == gameId && g.startedAt == none) db.games with
  | error e2 => rfl
  | ok g => rw [hf] at h; simp at h

theorem runTx_snd_error {α : Type} (db : DB) (body : DB → Except Error (DB × α)) (e : Error)
    (h : body db = Except.error e) : (runTx db body).2 = Except.error e := by
  unfold runTx
  rw [h]

theorem runTx_ok_cases {α : Type} (db : DB) (body : DB → Except Error (DB × α)) (r : α)
    (h : (runTx db body).2 = Except.ok r) :
    ∃ db2, body db = Except.ok (db2, r) ∧ (runTx db body).1 = db2 := by
  unfold runTx at h ⊢
  cases hb : body db with
  | ok p =>
    obtain ⟨db2, a⟩ := p
    rw [hb] at h
    simp at h
    subst h
    exact ⟨db2, rfl, rfl⟩
  | error e => rw [hb] at h; simp at h

theorem rollBody_fault_error (gameId k : ℕ) (db : DB) :
    ∃ e, rollBody gameId k true db = Except.error e := by
  unfold rollBody
  split
  · exact ⟨_, rfl⟩
  · dsimp only
    split
    · exact ⟨_, if_pos rfl⟩
    · exact ⟨Error.NotFound, rfl⟩

theorem pickBody_fault_error (gameId : Nat) (presentId : Int) (db : DB) :
    ∃ e, pickBody gameId presentId true db = Except.error e := by
  unfold pickBody
  split
  · exact ⟨_, rfl⟩
  · exact ⟨_, if_pos rfl⟩

theorem keepBody_fault_error (gameId : Nat) (db : DB) :
    ∃ e, keepBody gameId true db = Except.error e := by
  unfold keepBody
  split
  · exact ⟨_, rfl⟩
  · dsimp only
    split
    · exact ⟨_, rfl⟩
    · exact ⟨_, if_pos rfl⟩

theorem stealBody_fault_error (gameId : Nat) (presentId : Int) (db : DB) :
    ∃ e, stealBody gameId presentId true db = Except.error e := by
  unfold stealBody
  split
  · exact ⟨_, rfl⟩
  · dsimp only
    split
    · exact ⟨_, rfl⟩
    · split
      · exact ⟨_, rfl⟩
      · exact ⟨_, if_pos rfl⟩

theorem resetBody_fault_error (gameId : Nat) (db : DB) :
    ∃ e, resetBody gameId true db = Except.error e := by
  unfold resetBody
  dsimp only
  split
  · exact ⟨_, rfl⟩
  · exact ⟨_, if_pos rfl⟩

/-- C3 (amended): among the six Turn Engine operations only roll, pick,
keep and steal insert a PlayEvent row — exactly one, for the acted-on
game, inside the committing transaction; start appends none (the
play_events table is untouched by its successful commit) and reset appends
none, instead deleting every event of the game. -/
theorem event_append_per_op
    (db : DB) (gameId : Nat) (presentId targetId : Int) (k : Nat) :
    (∀ r, (start db gameId).2 = Except.ok r →
      (start db gameId).1.playEvents = db.playEvents) ∧
    (∀ r, (reset db gameId false).2 = Except.ok r →
      ∀ ev ∈ (reset db gameId false).1.playEvents, ev.gameId ≠ gameId) ∧
    (∀ r, (roll db gameId k false).2 = Except.ok r →
      ∃ ev, (roll db gameId k false).1.playEvents = db.playEvents ++ [ev] ∧ ev.gameId = gameId) ∧
    (∀ r, (pick db gameId presentId false).2 = Except.ok r →
      ∃ ev, (pick db gameId presentId false).1.playEvents = db.playEvents ++ [ev] ∧ ev.gameId = gameId) ∧
    (∀ r, (keep db gameId false).2 = Except.ok r →
      ∃ ev, (keep db gameId false).1.playEvents = db.playEvents ++ [ev] ∧ ev.gameId = gameId) ∧
    (∀ r, (steal db gameId targetId false).2 = Except.ok r →
      ∃ ev, (steal db gameId targetId false).1.playEvents = db.playEvents ++ [ev] ∧ ev.gameId = gameId) := by
  refine ⟨?_, ?_, ?_, ?_, ?_, ?_⟩
  · intro r _
    exact start_playEvents_eq db gameId
  · intro r h
    rcases runTx_ok_cases db (resetBody gameId false) r h with ⟨db2, hb, h1⟩
    have h1r : (reset db gameId false).1 = db2 := h1
    rw [h1r]
    exact resetBody_ok_events gameId false db db2 r hb
  · intro r h
    rcases runTx_ok_cases db (rollBody gameId k false) r h with ⟨db2, hb, h1⟩
    have h1r : (roll db gameId k false).1 = db2 := h1
    rw [h1r]
    exact rollBody_ok_event gameId k false db db2 r hb
  · intro r h
    rcases runTx_ok_cases db (pickBody gameId presentId false) r h with ⟨db2, hb, h1⟩
    have h1r : (pick db gameId presentId false).1 = db2 := h1
    rw [h1r]
    exact pickBody_ok_event gameId presentId false db db2 r hb
  · intro r h
    rcases runTx_ok_cases db (keepBody gameId false) r h with ⟨db2, hb, h1⟩
    have h1r : (keep db gameId false).1 = db2 := h1
    rw [h1r]
    exact keepBody_ok_event gameId false db db2 r hb
  · intro r h
    rcases runTx_ok_cases db (stealBody gameId targetId false) r h with ⟨db2, hb, h1⟩
    have h1r : (steal db gameId targetId false).1 = db2 := h1
    rw [h1r]
    exact stealBody_ok_event gameId targetId false db db2 r hb

/-- C3 witness: each successful operation evaluated on a concrete store:
roll, pick, keep and steal append one event for game 1, start appends
none, reset leaves none. -/
theorem event_append_per_op_witness :
    (∃ ev, (roll freshDB 1 0 false).1.playEvents = freshDB.playEvents ++ [ev] ∧ ev.gameId = 1) ∧
    (∃ ev, (pick rolledDB 1 100 false).1.playEvents = rolledDB.playEvents ++ [ev] ∧ ev.gameId = 1) ∧
    (∃ ev, (keep stealDB 1 false).1.playEvents = stealDB.playEvents ++ [ev] ∧ ev.gameId = 1) ∧
    (∃ ev, (steal stealDB 1 200 false).1.playEvents = stealDB.playEvents ++ [ev] ∧ ev.gameId = 1) ∧
    ((start freshDB 1).1.playEvents = freshDB.playEvents) ∧
    (∀ ev ∈ (reset stealDB 1 false).1.playEvents, ev.gameId ≠ 1) := by
  have h1 := event_append_per_op freshDB 1 100 200 0
  have h2 := event_append_per_op rolledDB 1 100 200 0
  have h3 := event_append_per_op stealDB 1 100 200 0
  refine ⟨?_, ?_, ?_, ?_, ?_, ?_⟩
  · exact h1.2.2.1 { playerId := some 10, presentId := none, startedAt := none, updatedAt := 0 } (by decide)
  · exact h2.2.2.2.1 { playerId := none, presentId := some 100, startedAt := none, updatedAt := 9 } (by decide)
  · exact h3.2.2.2.2.1 { playerId := none, presentId := none, startedAt := none, updatedAt := 9 } (by decide)
  · exact h3.2.2.2.2.2 { playerId := none, presentId := none, startedAt := none, updatedAt := 9 } (by decide)
  · exact h1.1 { playerId := none, presentId := none, startedAt := some 9, updatedAt := 0 } (by decide)
  · exact h3.2.1 { playerId := none, presentId := none, startedAt := none, updatedAt := 9 } (by decide)

/-- C7: every operation is all-or-nothing. Whenever an operation returns
an error — guard failure, missing row, or an injected storage failure of
the event-append statement (fault = true aborts every event-appending
transaction, and reset's event delete) — the visible store equals the
input store: no partial write survives the rollback. Whenever an
event-appending operation succeeds, the committed store carries its
PlayEvent together with the state mutation (for reset, the deletion of the
game's events) in the same transaction result. -/
theorem tx_all_or_nothing
    (db : DB) (gameId : Nat) (presentId targetId : Int) (k : Nat) (fault : Bool) :
    (∀ e, (start db gameId).2 = Except.error e → (start db gameId).1 = db) ∧
    (∀ e, (reset db gameId fault).2 = Except.error e → (reset db gameId fault).1 = db) ∧
    (∀ e, (roll db gameId k fault).2 = Except.error e → (roll db gameId k fault).1 = db) ∧
    (∀ e, (pick db gameId presentId fault).2 = Except.error e → (pick db gameId presentId fault).1 = db) ∧
    (∀ e, (keep db gameId fault).2 = Except.error e → (keep db gameId fault).1 = db) ∧
    (∀ e, (steal db gameId targetId fault).2 = Except.error e → (steal db gameId targetId fault).1 = db) ∧
    (fault = true →
      (∃ e, (reset db gameId fault).2 = Except.error e) ∧
      (∃ e, (roll db gameId k fault).2 = Except.error e) ∧
      (∃ e, (pick db gameId presentId fault).2 = Except.error e) ∧
      (∃ e, (keep db gameId fault).2 = Except.error e) ∧
      (∃ e, (steal db gameId targetId fault).2 = Except.error e)) ∧
    (∀ r, (roll db gameId k fault).2 = Except.ok r →
      ∃ ev, (roll db gameId k fault).1.playEvents = db.playEvents ++ [ev] ∧ ev.gameId = gameId) ∧
    (∀ r, (pick db gameId presentId fault).2 = Except.ok r →
      ∃ ev, (pick db gameId presentId fault).1.playEvents = db.playEvents ++ [ev] ∧ ev.gameId = gameId) ∧
    (∀ r, (keep db gameId fault).2 = Except.ok r →
      ∃ ev, (keep db gameId fault).1.playEvents = db.playEvents ++ [ev] ∧ ev.gameId = gameId) ∧
    (∀ r, (steal db gameId targetId fault).2 = Except.ok r →
      ∃ ev, (steal db gameId targetId fault).1.playEvents = db.playEvents ++ [ev] ∧ ev.gameId = gameId) ∧
    (∀ r, (reset db gameId fault).2 = Except.ok r →
      ∀ ev ∈ (reset db gameId fault).1.playEvents, ev.gameId ≠ gameId) := by
  refine ⟨?_, ?_, ?_, ?_, ?_, ?_, ?_, ?_, ?_, ?_, ?_, ?_⟩
  · exact fun e h => start_error_eq db gameId e h
  · exact fun e h => runTx_error_eq db (resetBody gameId fault) e h
  · exact fun e h => runTx_error_eq db (rollBody gameId k fault) e h
  · exact fun e h => runTx_error_eq db (pickBody gameId presentId fault) e h
  · exact fun e h => runTx_error_eq db (keepBody gameId fault) e h
  · exact fun e h => runTx_error_eq db (stealBody gameId targetId fault) e h
  · intro hf
    subst hf
    refine ⟨?_, ?_, ?_, ?_, ?_⟩
    · obtain ⟨e, he⟩ := resetBody_fault_error gameId db
      exact ⟨e, runTx_snd_error db (resetBody gameId true) e he⟩
    · obtain ⟨e, he⟩ := rollBody_fault_error gameId k db
      exact ⟨e, runTx_snd_error db (rollBody gameId k true) e he⟩
    · obtain ⟨e, he⟩ := pickBody_fault_error gameId presentId db
      exact ⟨e, runTx_snd_error db (pickBody gameId presentId true) e he⟩
    · obtain ⟨e, he⟩ := keepBody_fault_error gameId db
      exact ⟨e, runTx_snd_error db (keepBody gameId true) e he⟩
    · obtain ⟨e, he⟩ := stealBody_fault_error gameId targetId db
      exact ⟨e, runTx_snd_error db (stealBody gameId targetId true) e he⟩
  · intro r h
    rcases runTx_ok_cases db (rollBody gameId k fault) r h with ⟨db2, hb, h1⟩
    have h1r : (roll db gameId k fault).1 = db2 := h1
    rw [h1r]
    exact rollBody_ok_event gameId k fault db db2 r hb
  · intro r h
    rcases runTx_ok_cases db (pickBody gameId presentId fault) r h with ⟨db2, hb, h1⟩
    have h1r : (pick db gameId presentId fault).1 = db2 := h1
    rw [h1r]
    exact pickBody_ok_event gameId presentId fault db db2 r hb
  · intro r h
    rcases runTx_ok_cases db (keepBody gameId fault) r h with ⟨db2, hb, h1⟩
    have h1r : (keep db gameId fault).1 = db2 := h1
    rw [h1r]
    exact keepBody_ok_event gameId fault db db2 r hb
  · intro r h
    rcases runTx_ok_cases db (stealBody gameId targetId fault) r h with ⟨db2, hb, h1⟩
    have h1r : (steal db gameId targetId fault).1 = db2 := h1
    rw [h1r]
    exact stealBody_ok_event gameId targetId fault db db2 r hb
  · intro r h
    rcases runTx_ok_cases db (resetBody gameId fault) r h with ⟨db2, hb, h1⟩
    have h1r : (reset db gameId fault).1 = db2 := h1
    rw [h1r]
    exact resetBody_ok_events gameId fault db db2 r hb

/-- C7 witness: with the event-append statement failing (fault = true),
keep and steal on stealDB abort and leave the store untouched; with it
working, keep commits its event. -/
theorem tx_all_or_nothing_witness :
    ((keep stealDB 1 true).1 = stealDB) ∧
    ((steal stealDB 1 200 true).1 = stealDB) ∧
    (∃ ev, (keep stealDB 1 false).1.playEvents = stealDB.playEvents ++ [ev] ∧ ev.gameId = 1) := by
  obtain ⟨hstart, hreset, hroll, hpick, hkeep, hsteal, hfault, hrollok, hpickok, hkeepok,
    hstealok, hresetok⟩ := tx_all_or_nothing stealDB 1 100 200 0 true
  obtain ⟨-, -, -, -, -, -, -, -, -, hkeepok0, -, -⟩ := tx_all_or_nothing stealDB 1 100 200 0 false
  obtain ⟨_, _, _, hek, hes⟩ := hfault rfl
  refine ⟨?_, ?_, ?_⟩
  · obtain ⟨e, he⟩ := hek
    exact hkeep e he
  · obtain ⟨e, he⟩ := hes
    exact hsteal e he
  · exact hkeepok0 { playerId := none, presentId := none, startedAt := none, updatedAt := 9 } (by decide)

end EvilSanta
